import Mathlib

/-!
Verification of the timesheet Action/State Resolution and Reconciliation
Engine of the atscale monorepo.

The definitions below are a shallow embedding of the Python source:

* `src/connecteam/timesheets/webhook_ct_timesheet/process_timesheet.py`
  (`round_to_nearest_5_minutes`, `process_timesheet_data`,
  `derive_everee_action_type`, `determine_everee_sync_state`,
  `check_if_ct_exist`, `retrieve_worker_and_pay_details`),
* `src/connecteam/timesheets/webhook_ct_timesheet/main.py` (`lambda_handler`),
* `src/everee/timesheet/webhook_everee_timesheet/process_timesheet.py`
  (`process_delete`, `everee_create_shift`, `process_res`,
  `update_sync_state`),
* `src/everee/timesheet/webhook_everee_timesheet/main.py` (`lambda_handler`).

Database lookups, HTTP responses and scheduler outcomes are passed in as
explicit parameters; the functions otherwise follow the source branch by
branch.
-/

namespace AtScale

/-- Occurrence of the character list `pat` somewhere in the second list:
`pat` is a prefix of the list or occurs in its tail. -/
def charsOccur (pat : List Char) : List Char → Bool
  | [] => pat.isEmpty
  | c :: cs => pat.isPrefixOf (c :: cs) || charsOccur pat cs

/-- Boolean substring test: `containsStr s pat` is true when `pat` occurs in
`s`.  This mirrors the pandas test
`df[..event_type..].str.contains(pat).any()` applied to the single
event_type value of one webhook delivery (the patterns used by the source
contain no regex metacharacters). -/
def containsStr (s pat : String) : Bool :=
  charsOccur pat.data s.data

/-- The repeated guard from the source:
`contains(..delete..) or contains(..declined..)` on the event type. -/
def isDeleteOrDeclined (event_type : String) : Bool :=
  containsStr event_type ("delete") || containsStr event_type ("declined")

/-- The row returned by `check_if_ct_exist` for a business key that already
has a record: its stored `everee_sync_state` and `timesheet_sk` (content
hash).  `check_if_ct_exist` selects both columns; note that the source never
compares `timesheet_sk` with the hash of the incoming record. -/
structure PriorCtRecord where
  everee_sync_state : Option String
  timesheet_sk : String
deriving DecidableEq

/-- Embedding of `derive_everee_action_type` (connecteam side).  The input
`prior` is the result of the `check_if_ct_exist` lookup (`none` when the
query returned an empty frame).  Returns the pair
(`everee_action_type`, `everee_sync_state`) written onto the record, or
`none` if no branch assigned an action type.  The second `if` mirrors the
source `elif (not contains delete) or (not contains declined)` literally. -/
def derive_everee_action_type (prior : Option PriorCtRecord) (event_type : String) :
    Option (String × Option String) :=
  match prior with
  | some p =>
    if containsStr event_type ("delete") || containsStr event_type ("declined") then
      some (("delete"), p.everee_sync_state)
    else if !(containsStr event_type ("delete")) || !(containsStr event_type ("declined")) then
      some (("update"), p.everee_sync_state)
    else
      none
  | none => some (("create"), none)

/-- Embedding of `determine_everee_sync_state` (connecteam side).  The row
fields `everee_action_type`, `everee_sync_state` and `end_timestamp` are
passed explicitly, as is the clock value `now_utc`.  The Python function
returns `None` implicitly when it falls through both blocks; that path is
the final `none` here. -/
def determine_everee_sync_state (everee_action_type : String)
    (everee_sync_state : Option String) (end_timestamp : Option Int)
    (now_utc : Int) : Option String :=
  match end_timestamp with
  | some clock_out =>
    if clock_out > now_utc ∧ everee_action_type ≠ "delete" then some ("SCHEDULED")
    else if everee_action_type = "delete" then some ("DELETE")
    else some ("SENT")
  | none =>
    if (everee_action_type = "create" ∨ everee_action_type = "delete")
        ∧ everee_sync_state = some ("SCHEDULED") then
      some ("DELETE")
    else
      none

/-- Embedding of `round_to_nearest_5_minutes`.  The Python code converts the
epoch to a datetime, rounds the minute field, and rebuilds the epoch with
`replace(minute=rounded_minutes, second=0, microsecond=0)`.  When the
computed `rounded_minutes` is `60` (minute of hour at least 55 and offset at
least 150 seconds past the boundary), `datetime.replace` raises
`ValueError`; that outcome is `none` here. -/
def round_to_nearest_5_minutes (t : Nat) : Option Nat :=
  let minutes := t / 60 % 60
  let seconds := t % 60
  if seconds > 0 ∨ minutes % 5 > 0 then
    let rounded_minutes :=
      if (minutes % 5) * 60 + seconds < 150 then minutes / 5 * 5
      else (minutes / 5 + 1) * 5
    if rounded_minutes ≥ 60 then none
    else some (t - (minutes * 60 + seconds) + rounded_minutes * 60)
  else
    some t

/-- The nearest multiple of 300 seconds, with offsets of 150 or more rounding
up: the rounding behaviour the specification attributes to the normalizer. -/
def nearest_multiple_of_300 (t : Nat) : Nat :=
  (t + 150) / 300 * 300

/-- The timestamp handling of `process_timesheet_data` (called with the
default `round_time=True`): delete/declined events drop the start and end
timestamp columns entirely, time_off events force `round_time = False` and
keep the raw values, and every other (shift) event replaces both timestamps
with `round_to_nearest_5_minutes`.  An exception inside the rounding makes
the whole function return `None` (its `except` branch), which is the outer
`none`. -/
def process_timesheet_timestamps (event_type activity_type : String)
    (start_ts end_ts : Nat) : Option (Option Nat × Option Nat) :=
  if isDeleteOrDeclined event_type then
    some (none, none)
  else if activity_type = "time_off" then
    some (some start_ts, some end_ts)
  else
    match round_to_nearest_5_minutes start_ts, round_to_nearest_5_minutes end_ts with
    | some s, some e => some (some s, some e)
    | _, _ => none

/-- One HTTP call actually issued to the Payroll (Everee) API, with the
status code the API answered. -/
inductive PayrollCall where
  | delete (worked_shift_id : String) (status : Nat)
  | create (status : Nat)
deriving DecidableEq

/-- A row upserted into `operations.webhook_everee_timesheet` via
`insert_to_db`, classified the way `process_res` classifies the response it
was built from: status 200 becomes a success row, 204 a delete-response
row, anything else a failure row carrying the error code (and the
placeholder `ct_time_activity_id + _Null` shift id). -/
inductive PersistRow where
  | successRow (status : Nat)
  | deleteRow
  | failedRow (status : Nat)
deriving DecidableEq

/-- The external world as seen by one invocation of the everee lambda:
the `worked_shift_id` the database lookup in `process_delete` /
`process_update` returns for the business key (`none` when the query comes
back empty), and the status codes the Payroll API answers to a delete and
to a create. -/
structure PayrollEnv where
  worked_shift_id : Option String
  delete_status : Nat
  create_status : Nat
deriving DecidableEq

/-- The Python value returned by `process_delete`: either the pair
`(delete_response, ct_payload_df)` (a tuple), or `None` when no database
record was found or no activity id was supplied. -/
inductive PyDeleteRes where
  | respTuple (status : Nat) (worked_shift_id : String)
  | pyNone
deriving DecidableEq

/-- Python equality between the value returned by `process_delete` and a
string, as in `delete_shift_res == "success"` and
`delete_shift_res in ["success", "bad request"]` in the everee
`lambda_handler`.  In Python a tuple or `None` is never `==` to a `str`,
so both cases are `false`; the string operand does not matter. -/
def deleteResEqStr (r : PyDeleteRes) (s : String) : Bool :=
  match r, s with
  | .respTuple _ _, _ => false
  | .pyNone, _ => false

/-- The `response.status_code` read that `process_res` would perform on a
`process_delete` result: available only in the tuple case. -/
def pyStatusOf (r : PyDeleteRes) : Option Nat :=
  match r with
  | .respTuple st _ => some st
  | .pyNone => none

/-- Embedding of `process_delete` (everee side).  Looks up the stored
`worked_shift_id` for the activity id; when found, issues the Payroll
delete (`delete_timesheet`) and returns the `(response, dataframe)` tuple,
otherwise returns `None` without any API call.  The second component
collects the HTTP calls issued. -/
def process_delete (ct_time_activity_id : Option String) (env : PayrollEnv) :
    PyDeleteRes × List PayrollCall :=
  match ct_time_activity_id with
  | some _ =>
    match env.worked_shift_id with
    | some wsid => (.respTuple env.delete_status wsid, [.delete wsid env.delete_status])
    | none => (.pyNone, [])
  | none => (.pyNone, [])

/-- Embedding of `everee_create_shift`.  The function filters the payload
and then reads `timesheet_payload[..override_rate..]` unconditionally; when
the payload carries no `override_rate` key (delete/declined-shaped
payloads) this raises `KeyError` before the POST is made, the surrounding
`except` swallows it, and the function returns `None`.  Otherwise the POST
is issued and the response status returned. -/
def everee_create_shift (has_override_rate_key : Bool) (env : PayrollEnv) :
    Option Nat × List PayrollCall :=
  if has_override_rate_key then (some env.create_status, [.create env.create_status])
  else (none, [])

/-- Embedding of `process_res`: classify a response by status code.
Status 200 goes through `process_success_response`, 204 through
`process_delete_response`, anything else through
`process_failed_response`.  A `None` response (a create attempt that never
reached the API) raises inside the `try` and yields `None`, so nothing is
persisted for it. -/
def process_res (status : Option Nat) : Option PersistRow :=
  match status with
  | some 200 => some (.successRow 200)
  | some 204 => some .deleteRow
  | some s => some (.failedRow s)
  | none => none

/-- The observable effects of one everee `lambda_handler` action branch:
the Payroll HTTP calls issued, in order, and the rows upserted into
`operations.webhook_everee_timesheet`, in order. -/
structure HandlerTrace where
  calls : List PayrollCall
  persisted : List PersistRow
deriving DecidableEq

/-- Embedding of the action dispatch of the everee `lambda_handler`
(`main.py` lines 34-69).  Notes kept from the source:

* in the `update` branch the guard
  `delete_shift_res in ["success", "bad request"]` compares the
  tuple-or-None result of `process_delete` with strings and is therefore
  never true, so the branch that would persist the delete outcome and only
  then re-submit is dead and the `else` branch (create only, persist only
  the create outcome) always runs;
* the later `elif` for `update and declined in event_type` is unreachable
  because the plain `update` branch above it matches first, so it is not
  modelled as a separate branch;
* in the `delete` branch the guard `delete_shift_res == "success"` is never
  true for the same reason, so no row is ever persisted there. -/
def everee_lambda_dispatch (everee_action_type : Option String)
    (ct_time_activity_id : Option String) (has_override_rate_key : Bool)
    (env : PayrollEnv) : HandlerTrace :=
  if everee_action_type = some ("create") then
    let res := everee_create_shift has_override_rate_key env
    { calls := res.2, persisted := (process_res res.1).toList }
  else if everee_action_type = some ("update") then
    let dres := process_delete ct_time_activity_id env
    if deleteResEqStr dres.1 ("success") || deleteResEqStr dres.1 ("bad request") then
      let cres := everee_create_shift has_override_rate_key env
      { calls := dres.2 ++ cres.2,
        persisted := (process_res (pyStatusOf dres.1)).toList ++ (process_res cres.1).toList }
    else
      let cres := everee_create_shift has_override_rate_key env
      { calls := dres.2 ++ cres.2, persisted := (process_res cres.1).toList }
  else if everee_action_type = some ("delete") then
    let dres := process_delete ct_time_activity_id env
    if deleteResEqStr dres.1 ("success") then
      { calls := dres.2, persisted := (process_res (pyStatusOf dres.1)).toList }
    else
      { calls := dres.2, persisted := [] }
  else
    { calls := [], persisted := [] }

/-- Which downstream lambdas the connecteam `lambda_handler` invokes once
the record has been classified and persisted (`main.py` lines 55-70):
the payroll-sync lambda (`FUNCTION_NAME`) and/or the scheduler lambda
(`EVENTBRIDGE_FUNCTION_NAME`), depending on the resolved sync state and on
whether an everee record already exists for the key. -/
structure CtDispatch where
  invoked_payroll_sync : Bool
  invoked_eventbridge : Bool
deriving DecidableEq

/-- Embedding of the dispatch tail of the connecteam `lambda_handler`. -/
def ct_lambda_dispatch (everee_sync_state : Option String)
    (everee_record_exists : Bool) : CtDispatch :=
  if (everee_sync_state = some ("SCHEDULED") ∨ everee_sync_state = some ("DELETE"))
      ∧ everee_record_exists then
    { invoked_payroll_sync := true, invoked_eventbridge := true }
  else if (everee_sync_state = some ("SCHEDULED") ∨ everee_sync_state = some ("DELETE"))
      ∧ ¬ everee_record_exists then
    { invoked_payroll_sync := false, invoked_eventbridge := true }
  else
    { invoked_payroll_sync := true, invoked_eventbridge := false }

/-- The Payroll HTTP calls produced by one webhook delivery, composing the
connecteam-side classification, sync-state resolution and dispatch with the
everee-side action dispatch.  `incoming_timesheet_sk` is the content hash
of the incoming canonical record; the source computes and stores it,
and `check_if_ct_exist` selects the stored one, but no code path compares
the two, which is why the parameter is unused here.  The payload built by
`everee_timesheet_payload` carries an `override_rate` key exactly for
non-delete, non-declined events. -/
def pipeline_payroll_calls (prior : Option PriorCtRecord) (event_type : String)
    (end_timestamp : Option Int) (now_utc : Int)
    (ct_time_activity_id : Option String) (everee_record_exists : Bool)
    (env : PayrollEnv) (incoming_timesheet_sk : String) : List PayrollCall :=
  match derive_everee_action_type prior event_type with
  | none => []
  | some (action, carried) =>
    let sync := determine_everee_sync_state action carried end_timestamp now_utc
    let gate := ct_lambda_dispatch sync everee_record_exists
    if gate.invoked_payroll_sync then
      (everee_lambda_dispatch (some action) ct_time_activity_id
        (!(isDeleteOrDeclined event_type)) env).calls
    else
      []

/-- Outcome of the sync-state finalization tail of the everee
`lambda_handler` (`main.py` lines 71-78): the value of
`everee_sync_state` stored for the record after the invocation, whether
the scheduler (eventbridge) lambda was invoked, and whether an uncaught
exception reached the handler `except` block. -/
structure FinalizeResult where
  sync_state_after : Option String
  eventbridge_invoked : Bool
  errored : Bool
deriving DecidableEq

/-- Embedding of the finalization tail of the everee `lambda_handler`.
Order as in the source: `update_sync_state` (an UPDATE setting the stored
state to SENT) runs first; then the eventbridge payload is built, reading
`payload["schedule_name"]` (a `KeyError` when absent); then, only when the
update reported success, `invoke_lambda_function` fires the scheduler
cancellation.  `invoke_lambda_function` is an asynchronous fire-and-forget
invoke that swallows its own exceptions, so the outcome of the scheduler
operation (`scheduler_ok`) cannot influence anything the handler does --
in particular it cannot influence the stored sync state, which was already
written. -/
def sync_state_finalize (everee_sync_state : Option String)
    (ct_timesheet_id : Option String) (schedule_name : Option String)
    (prior_stored_state : Option String) (db_update_ok : Bool)
    (scheduler_ok : Bool) : FinalizeResult :=
  if (everee_sync_state = some ("SCHEDULED") ∨ everee_sync_state = some ("DELETE"))
      ∧ ct_timesheet_id ≠ none then
    let stateAfter := if db_update_ok then some ("SENT") else prior_stored_state
    match schedule_name with
    | none =>
      { sync_state_after := stateAfter, eventbridge_invoked := false, errored := true }
    | some _ =>
      if db_update_ok then
        { sync_state_after := stateAfter, eventbridge_invoked := true, errored := false }
      else
        { sync_state_after := stateAfter, eventbridge_invoked := false, errored := false }
  else
    { sync_state_after := prior_stored_state, eventbridge_invoked := false, errored := false }

/-- The single-quote character that the f-strings of the source place
around each interpolated value. -/
def quo : String := "\x27"

/-- The SQL text built by `check_if_ct_exist` (connecteam side).  The two
values come straight from the webhook dataframe
(`df[..connecteam_user_id..][0]` and `df[..time_activity_id..][0]`) and are
interpolated into the statement by an f-string; whitespace is condensed
here but the token sequence is that of the source. -/
def check_if_ct_exist_query (ct_user_id time_activity_id : String) : String :=
  "select distinct connecteam_user_id, time_activity_id, everee_sync_state, timesheet_sk " ++
  ("from operations.webhook_ct_timesheet where connecteam_user_id = " ++
  (quo ++ (ct_user_id ++ (quo ++ (" and time_activity_id = " ++
  (quo ++ (time_activity_id ++ quo)))))))

/-- The SQL text built by the shift branch of
`retrieve_worker_and_pay_details` (connecteam side); the user id, job id
and sub-job id come from the webhook payload and are interpolated by an
f-string.  Only the WHERE clause carries the external input; the SELECT
list and JOINs are condensed to their table names. -/
def worker_pay_details_query (ct_user_id job_id sub_job_id : String) : String :=
  "select distinct a.first_name, a.worker_id, a.connecteam_id, a.title, a.approval_group, " ++
  ("a.ftn_id, p.override_rate, c.job_title from operations.all_workers a " ++
  ("LEFT JOIN operations.hourly_pay_rates p LEFT JOIN operations.ct_jobs c " ++
  ("where a.connecteam_id = " ++
  (quo ++ (ct_user_id ++ (quo ++ (" AND c.job_id = " ++
  (quo ++ (job_id ++ (quo ++ (" AND c.subjob_id = " ++
  (quo ++ (sub_job_id ++ quo)))))))))))))

/-- The SQL text built by `process_delete` (everee side); the activity id
comes from the inbound payload and is interpolated by an f-string. -/
def process_delete_query (ct_time_activity_id : String) : String :=
  "SELECT distinct worker_id, ct_time_activity_id, worked_shift_id, load_dt " ++
  ("FROM operations.webhook_everee_timesheet where ct_time_activity_id = " ++
  (quo ++ (ct_time_activity_id ++ (quo ++ " ORDER BY load_dt DESC LIMIT 1"))))

/-- The SQL text built by `update_sync_state` (everee side); the timesheet
id comes from the inbound payload and is interpolated by an f-string. -/
def update_sync_state_query (ct_timesheet_id : String) : String :=
  "UPDATE operations.webhook_ct_timesheet SET everee_sync_state = " ++
  (quo ++ ("SENT" ++ (quo ++ (" WHERE time_activity_id = " ++
  (quo ++ (ct_timesheet_id ++ (quo ++ ";")))))))

/-- `needle` occurs verbatim, unescaped, inside `hay`. -/
def occursIn (needle hay : String) : Prop :=
  ∃ a b : String, hay = a ++ (needle ++ b)

theorem string_append_assoc (a b c : String) : (a ++ b) ++ c = a ++ (b ++ c) := by
  cases a
  cases b
  cases c
  apply congrArg String.mk
  apply List.append_assoc

theorem occursIn_append_left (a : String) {needle hay : String}
    (h : occursIn needle hay) : occursIn needle (a ++ hay) := by
  obtain ⟨x, y, rfl⟩ := h
  exact ⟨a ++ x, y, (string_append_assoc a x (needle ++ y)).symm⟩

theorem occursIn_head (needle b : String) : occursIn needle (needle ++ b) :=
  ⟨"", b, rfl⟩

/-- In Python, the tuple-or-None result of `process_delete` never equals a
string, whatever the string is. -/
theorem deleteResEqStr_eq_false (r : PyDeleteRes) (s : String) :
    deleteResEqStr r s = false := by
  cases r <;> rfl

end AtScale

namespace AtScale

/-- Claim C8 (confirmed).  Retraction override: for every record with no
end timestamp whose prior sync state is SCHEDULED and whose action type is
create or delete, `determine_everee_sync_state` returns DELETE, not
SENT. -/
theorem c8_retraction_override (a : String) (n : Int)
    (h : a = "create" ∨ a = "delete") :
    determine_everee_sync_state a (some ("SCHEDULED")) none n = some ("DELETE") := by
  rcases h with h | h <;> subst h <;> rfl

/-- Witness for C8 at action type create. -/
theorem c8_retraction_override_witness :
    determine_everee_sync_state ("create") (some ("SCHEDULED")) none 0 = some ("DELETE") :=
  c8_retraction_override ("create") 0 (Or.inl rfl)

/-- Claim C3, counterexample.  The claim says an action type of delete
always resolves to sync state DELETE regardless of timestamps; but a
delete-action record with no end timestamp whose prior sync state is SENT
falls through both blocks of `determine_everee_sync_state` and resolves to
None instead. -/
theorem c3_delete_not_always_DELETE :
    ¬ (determine_everee_sync_state ("delete") (some ("SENT")) none 0 = some ("DELETE")) := by
  decide

/-- Claim C3 (corrected).  A delete action resolves to DELETE whenever the
record carries an end timestamp, regardless of its value; without an end
timestamp it resolves to DELETE only when the prior sync state was
SCHEDULED, and to None otherwise. -/
theorem c3_delete_state_resolution (prior : Option String) (e n : Int) :
    (determine_everee_sync_state ("delete") prior (some e) n = some ("DELETE")) ∧
    (prior = some ("SCHEDULED") →
      determine_everee_sync_state ("delete") prior none n = some ("DELETE")) ∧
    (prior ≠ some ("SCHEDULED") →
      determine_everee_sync_state ("delete") prior none n = none) := by
  refine ⟨?_, ?_, ?_⟩
  · have h1 : ¬ (e > n ∧ ("delete" : String) ≠ "delete") := by
      rintro ⟨-, h⟩
      exact h rfl
    simp only [determine_everee_sync_state]
    rw [if_neg h1]
    simp
  · rintro rfl
    rfl
  · intro h
    simp only [determine_everee_sync_state]
    rw [if_neg]
    rintro ⟨-, h2⟩
    exact h h2

/-- Witness for the corrected C3: with prior state SENT, a delete action
with an end timestamp resolves to DELETE, and without one resolves to
None. -/
theorem c3_delete_state_resolution_witness :
    determine_everee_sync_state ("delete") (some ("SENT")) (some 5) 0 = some ("DELETE") ∧
    determine_everee_sync_state ("delete") (some ("SENT")) none 0 = none :=
  ⟨(c3_delete_state_resolution (some ("SENT")) 5 0).1,
   (c3_delete_state_resolution (some ("SENT")) 5 0).2.2 (by decide)⟩

/-- Claim C5 (confirmed).  Action classification is a total trichotomy on
prior history: no prior record gives create; a prior record with a
delete/declined event type gives delete carrying the prior sync state
forward; a prior record with any non-delete event type gives update, also
carrying the prior sync state forward. -/
theorem c5_action_trichotomy (prior : Option PriorCtRecord) (event_type : String) :
    (prior = none →
      derive_everee_action_type prior event_type = some (("create"), none)) ∧
    (∀ p : PriorCtRecord, prior = some p → isDeleteOrDeclined event_type = true →
      derive_everee_action_type prior event_type = some (("delete"), p.everee_sync_state)) ∧
    (∀ p : PriorCtRecord, prior = some p → isDeleteOrDeclined event_type = false →
      derive_everee_action_type prior event_type = some (("update"), p.everee_sync_state)) := by
  refine ⟨?_, ?_, ?_⟩
  · rintro rfl
    rfl
  · rintro p rfl h
    have h2 : (containsStr event_type ("delete") || containsStr event_type ("declined")) = true := h
    simp only [derive_everee_action_type]
    rw [if_pos h2]
  · rintro p rfl h
    rw [isDeleteOrDeclined, Bool.or_eq_false_iff] at h
    simp only [derive_everee_action_type]
    rw [if_neg (by simp [h.1, h.2]), if_pos (by simp [h.1])]

/-- Witness for C5 on a declined event with a prior SCHEDULED record. -/
theorem c5_action_trichotomy_witness :
    derive_everee_action_type (some ⟨some ("SCHEDULED"), "SK1"⟩) ("timeoff_declined") =
      some (("delete"), some ("SCHEDULED")) :=
  (c5_action_trichotomy (some ⟨some ("SCHEDULED"), "SK1"⟩) ("timeoff_declined")).2.1
    ⟨some ("SCHEDULED"), "SK1"⟩ rfl (by decide)

/-- Claim C1, counterexample.  The claim says sync state leaves
SCHEDULED/DELETE for the terminal SENT only after the deferred-trigger
operation succeeded, and that a failed trigger operation leaves sync state
unchanged.  In the handler the `update_sync_state` write runs first and the
trigger invocation is a later fire-and-forget call, so here the scheduler
operation fails (`scheduler_ok = false`) and the stored state has
nevertheless moved from SCHEDULED to SENT. -/
theorem c1_sent_advances_despite_trigger_failure :
    (sync_state_finalize (some ("SCHEDULED")) (some ("A1"))
        (some ("submit_timesheet_A1")) (some ("SCHEDULED")) true false).sync_state_after
      ≠ some ("SCHEDULED") ∧
    (sync_state_finalize (some ("SCHEDULED")) (some ("A1"))
        (some ("submit_timesheet_A1")) (some ("SCHEDULED")) true false).sync_state_after
      = some ("SENT") := by
  decide

/-- Claim C1 (corrected).  The order is the reverse of the claim: the
update of `everee_sync_state` to SENT runs first, and the trigger
invocation is attempted only when that database update succeeded — the
scheduler outcome never gates the state.  A failed database update leaves
the state unchanged and skips the trigger invocation. -/
theorem c1_sent_written_before_trigger (everee_sync_state ct_timesheet_id
    schedule_name prior : Option String) (db_update_ok scheduler_ok : Bool) :
    (db_update_ok = false →
      (sync_state_finalize everee_sync_state ct_timesheet_id schedule_name prior
        db_update_ok scheduler_ok).sync_state_after = prior ∧
      (sync_state_finalize everee_sync_state ct_timesheet_id schedule_name prior
        db_update_ok scheduler_ok).eventbridge_invoked = false) ∧
    ((everee_sync_state = some ("SCHEDULED") ∨ everee_sync_state = some ("DELETE")) →
      ct_timesheet_id ≠ none → schedule_name ≠ none → db_update_ok = true →
      (sync_state_finalize everee_sync_state ct_timesheet_id schedule_name prior
        db_update_ok scheduler_ok).sync_state_after = some ("SENT") ∧
      (sync_state_finalize everee_sync_state ct_timesheet_id schedule_name prior
        db_update_ok scheduler_ok).eventbridge_invoked = true) := by
  constructor
  · rintro rfl
    unfold sync_state_finalize
    split
    · cases schedule_name <;> simp
    · simp
  · intro hsync hid hsched hdb
    subst hdb
    unfold sync_state_finalize
    rw [if_pos ⟨hsync, hid⟩]
    cases schedule_name with
    | none => exact absurd rfl hsched
    | some s => simp

/-- Witness for the corrected C1: a DELETE-state record with the scheduler
operation failing still ends at SENT with the eventbridge invoked. -/
theorem c1_sent_written_before_trigger_witness :
    (sync_state_finalize (some ("DELETE")) (some ("A1"))
        (some ("submit_timesheet_A1")) (some ("DELETE")) true false).sync_state_after
      = some ("SENT") ∧
    (sync_state_finalize (some ("DELETE")) (some ("A1"))
        (some ("submit_timesheet_A1")) (some ("DELETE")) true false).eventbridge_invoked
      = true :=
  (c1_sent_written_before_trigger (some ("DELETE")) (some ("A1"))
      (some ("submit_timesheet_A1")) (some ("DELETE")) true false).2
    (Or.inr rfl) (by decide) (by decide) rfl

/-- Claim C2 (code bug).  For an update action with a known prior
`worked_shift_id` ("W1") where the Payroll delete answers 404, the handler
does issue the delete before the create and it does issue the create — but
the delete outcome is not persisted: the guard
`delete_shift_res in ["success", "bad request"]` compares the
tuple-or-None result of `process_delete` with strings, is never true, and
so the branch that would persist the delete outcome is dead.  Only the
create outcome row is upserted. -/
theorem c2_update_delete_outcome_not_persisted :
    everee_lambda_dispatch (some ("update")) (some ("A1")) true
        ⟨some ("W1"), 404, 200⟩ =
      { calls := [.delete ("W1") 404, .create 200],
        persisted := [.successRow 200] } := by
  decide

/-- Claim C7 (code bug).  For a delete action with a known prior
`worked_shift_id`, no outcome row is ever persisted: not for a failing
status (500), and not even for the success status (204).  The guard
`delete_shift_res == "success"` compares the tuple returned by
`process_delete` with a string and is never true, so the persisting branch
is dead and failures are silently dropped. -/
theorem c7_delete_outcome_never_persisted :
    everee_lambda_dispatch (some ("delete")) (some ("A1")) false
        ⟨some ("W1"), 500, 200⟩ =
      { calls := [.delete ("W1") 500], persisted := [] } ∧
    everee_lambda_dispatch (some ("delete")) (some ("A1")) false
        ⟨some ("W1"), 204, 200⟩ =
      { calls := [.delete ("W1") 204], persisted := [] } := by
  decide

/-- Claim C10 (code bug).  Epoch 3480 is 00:58:00, whose nearest multiple
of 300 is 3600; but `round_to_nearest_5_minutes` computes a rounded minute
of 60 and `datetime.replace` raises ValueError, so the rounding yields no
value and the whole shift normalization fails instead of rounding up.
The conjuncts also record the surrounding dispatch: time_off events keep
raw timestamps, delete events drop them, and inputs away from the end of
an hour do round to the nearest multiple of 300 (760 rounds up to 900,
749 rounds down to 600). -/
theorem c10_rounding_fails_near_hour_end :
    round_to_nearest_5_minutes 3480 = none ∧
    nearest_multiple_of_300 3480 = 3600 ∧
    process_timesheet_timestamps ("create") ("shift") 3480 3480 = none ∧
    process_timesheet_timestamps ("create") ("time_off") 3480 3480 =
      some (some 3480, some 3480) ∧
    process_timesheet_timestamps ("delete") ("shift") 3480 3480 =
      some (none, none) ∧
    round_to_nearest_5_minutes 760 = some 900 ∧
    nearest_multiple_of_300 760 = 900 ∧
    round_to_nearest_5_minutes 749 = some 600 ∧
    nearest_multiple_of_300 749 = 600 := by
  decide

/-- Claim C4, counterexample.  A redelivery of an identical canonical
record (stored `timesheet_sk` SK1 equal to the incoming hash SK1) after a
prior successful create is indeed classified update — but the claimed
hash-equality short-circuit does not exist: the pipeline still issues a
Payroll delete followed by a Payroll create, so Payroll calls are made on
the second delivery. -/
theorem c4_redelivery_still_calls_payroll :
    derive_everee_action_type (some ⟨some ("SENT"), "SK1"⟩) ("create") =
      some (("update"), some ("SENT")) ∧
    ¬ (pipeline_payroll_calls (some ⟨some ("SENT"), "SK1"⟩) ("create") (some 100) 200
        (some ("A1")) true ⟨some ("W1"), 204, 200⟩ ("SK1") = []) := by
  decide

/-- Claim C4 (corrected).  The second delivery of an identical record is
classified update, but no code path compares the stored content hash with
the incoming one: even when they are equal, the pipeline issues the
compensating Payroll delete followed by a Payroll create. -/
theorem c4_redelivery_classified_update_and_recreates (p : PriorCtRecord)
    (incoming_sk tid wsid : String) (e n : Int) (ds cs : Nat) (ex : Bool)
    (h_hash : p.timesheet_sk = incoming_sk) (h_past : ¬ e > n) :
    derive_everee_action_type (some p) ("create") =
      some (("update"), p.everee_sync_state) ∧
    pipeline_payroll_calls (some p) ("create") (some e) n (some tid) ex
        ⟨some wsid, ds, cs⟩ incoming_sk = [.delete wsid ds, .create cs] := by
  have hderive : derive_everee_action_type (some p) ("create") =
      some (("update"), p.everee_sync_state) := rfl
  refine ⟨hderive, ?_⟩
  have hne : ¬ (e > n ∧ ("update" : String) ≠ "delete") := fun hc => h_past hc.1
  simp only [pipeline_payroll_calls, hderive, determine_everee_sync_state]
  simp only [if_neg hne]
  simp [ct_lambda_dispatch, everee_lambda_dispatch, process_delete,
    everee_create_shift, deleteResEqStr_eq_false, process_res, isDeleteOrDeclined,
    show containsStr ("create") ("delete") = false from rfl,
    show containsStr ("create") ("declined") = false from rfl]

/-- Witness for the corrected C4 at concrete inputs with equal hashes and a
shift that already ended. -/
theorem c4_redelivery_classified_update_and_recreates_witness :
    derive_everee_action_type (some ⟨some ("SENT"), "SK1"⟩) ("create") =
      some (("update"), some ("SENT")) ∧
    pipeline_payroll_calls (some ⟨some ("SENT"), "SK1"⟩) ("create") (some 100) 200
        (some ("A1")) true ⟨some ("W1"), 204, 200⟩ ("SK1") =
      [.delete ("W1") 204, .create 200] :=
  c4_redelivery_classified_update_and_recreates ⟨some ("SENT"), "SK1"⟩
    ("SK1") ("A1") ("W1") 100 200 204 200 true rfl (by decide)

/-- Claim C6 (confirmed).  For every event whose event type contains
"declined", the pipeline never issues a Payroll create: with a prior
record the action classifies as delete and only the delete path runs; with
no prior record the action classifies as create, but the declined-shaped
payload carries no `override_rate` key, so `everee_create_shift` aborts on
the `KeyError` before any request is made.  By contrast an update action
(second conjunct) always ends by issuing the Payroll create. -/
theorem c6_declined_never_creates (incoming_sk event_type : String)
    (prior : Option PriorCtRecord) (e : Option Int) (n : Int)
    (tid : Option String) (ex : Bool) (env : PayrollEnv) (st : Nat)
    (h : containsStr event_type ("declined") = true) :
    (PayrollCall.create st ∉
      pipeline_payroll_calls prior event_type e n tid ex env incoming_sk) ∧
    PayrollCall.create env.create_status ∈
      (everee_lambda_dispatch (some ("update")) tid true env).calls := by
  constructor
  · have hD : isDeleteOrDeclined event_type = true := by
      simp [isDeleteOrDeclined, h]
    cases prior with
    | none =>
      have hd : derive_everee_action_type none event_type =
          some (("create"), none) := rfl
      have hcalls : (everee_lambda_dispatch (some ("create")) tid
          (!(isDeleteOrDeclined event_type)) env).calls = [] := by
        rw [hD]
        rfl
      simp only [pipeline_payroll_calls, hd]
      split
      · rw [hcalls]
        simp
      · simp
    | some p =>
      have hif : (containsStr event_type ("delete") ||
          containsStr event_type ("declined")) = true := by
        simp [h]
      have hd : derive_everee_action_type (some p) event_type =
          some (("delete"), p.everee_sync_state) := by
        simp only [derive_everee_action_type]
        rw [if_pos hif]
      simp only [pipeline_payroll_calls, hd]
      split
      · simp only [everee_lambda_dispatch, deleteResEqStr_eq_false]
        cases tid with
        | none => simp [process_delete]
        | some t =>
          cases hw : env.worked_shift_id with
          | none => simp [process_delete, hw]
          | some w => simp [process_delete, hw]
      · simp
  · simp only [everee_lambda_dispatch, deleteResEqStr_eq_false]
    cases tid with
    | none => simp [process_delete, everee_create_shift]
    | some t =>
      cases hw : env.worked_shift_id with
      | none => simp [process_delete, everee_create_shift, hw]
      | some w => simp [process_delete, everee_create_shift, hw]

/-- Witness for C6 on a concrete declined event with a prior SCHEDULED
record and a stored shift on file. -/
theorem c6_declined_never_creates_witness :
    (PayrollCall.create 200 ∉
      pipeline_payroll_calls (some ⟨some ("SCHEDULED"), "SK1"⟩) ("timeoff_declined")
        none 0 (some ("A1")) true ⟨some ("W1"), 204, 200⟩ ("SK1")) ∧
    PayrollCall.create 200 ∈
      (everee_lambda_dispatch (some ("update")) (some ("A1"))
        true ⟨some ("W1"), 204, 200⟩).calls :=
  c6_declined_never_creates ("SK1") ("timeoff_declined")
    (some ⟨some ("SCHEDULED"), "SK1"⟩) none 0 (some ("A1")) true
    ⟨some ("W1"), 204, 200⟩ 200 (by decide)

/-- Claim C9, counterexample.  Were the statements parameterized, the
query text sent to the store would not depend on the externally supplied
identifiers; but the text built by `check_if_ct_exist` differs between two
user ids, because the id is interpolated into the SQL string itself. -/
theorem c9_query_text_depends_on_input :
    ¬ (check_if_ct_exist_query ("1") ("7") = check_if_ct_exist_query ("2") ("7")) := by
  decide

/-- Claim C9 (corrected).  The per-event lookup and update statements are
not parameterized: every externally supplied identifier is interpolated
verbatim into the SQL text by an f-string (the generic gateway helpers in
`utils.py` do bind parameters, but none of these statements use them). -/
theorem c9_external_input_interpolated
    (ct_user_id time_activity_id job_id sub_job_id : String) :
    occursIn ct_user_id (check_if_ct_exist_query ct_user_id time_activity_id) ∧
    occursIn time_activity_id (check_if_ct_exist_query ct_user_id time_activity_id) ∧
    occursIn ct_user_id (worker_pay_details_query ct_user_id job_id sub_job_id) ∧
    occursIn job_id (worker_pay_details_query ct_user_id job_id sub_job_id) ∧
    occursIn sub_job_id (worker_pay_details_query ct_user_id job_id sub_job_id) ∧
    occursIn time_activity_id (process_delete_query time_activity_id) ∧
    occursIn time_activity_id (update_sync_state_query time_activity_id) := by
  refine ⟨?_, ?_, ?_, ?_, ?_, ?_, ?_⟩ <;>
    simp only [check_if_ct_exist_query, worker_pay_details_query,
      process_delete_query, update_sync_state_query] <;>
    repeat (first | exact occursIn_head _ _ | apply occursIn_append_left)

end AtScale
